import Mathlib

/-!
LiquidctlGUI — verification of the status-parsing / control-mapping core

A shallow embedding, in Lean 4, of the algorithmic core of
`LiquidctlGUI.py`: the percent↔RPM converters, the free-text and JSON
status parsers, the temperature-curve evaluator, the safety-boost state
machine, the CLI command-candidate generation, and the poll-driven UI
refresh with its user-override protection.

Python floats are modelled as rationals (`ℚ`); every comparison and
rounding boundary exercised by the theorems below is far from any
floating-point ulp, so real-valued arithmetic is a faithful model.
Python's `round` (banker's rounding, ties to even) and `int` (truncation
toward zero) are modelled explicitly as `pyRound` and `pyInt`.
-/

set_option allowUnsafeReducibility true
attribute [local semireducible] Rat.add Rat.mul Rat.sub Rat.inv Rat.ofScientific

namespace LiquidctlGUI

/-- Python's built-in `round` on a real number: nearest integer, ties to
even (banker's rounding).  Written with `Rat.floor` so that it evaluates
inside the kernel. -/
def pyRound (q : ℚ) : ℤ :=
  let f : ℤ := q.floor
  let r : ℚ := q - f
  if r < 1/2 then f
  else if 1/2 < r then f + 1
  else if f % 2 = 0 then f else f + 1

/-- Python's built-in `int` on a real number: truncation toward zero. -/
def pyInt (q : ℚ) : ℤ :=
  if 0 ≤ q then q.floor else -((-q).floor)

/-- `LiquidCtlGUI.percent_to_rpm` (lines 1732–1737).  `mn`/`mx` are the
channel's `min_*_rpm`/`max_*_rpm` (fan: 200/2000, pump: 1000/2700, set at
lines 486–487).  Source:
`if percent<=20: return mn; if percent>=100: return mx;
 return int(round((mn + (mx-mn)*(percent-20)/80)/100)*100)`. -/
def percent_to_rpm (mn mx percent : ℤ) : ℤ :=
  if percent ≤ 20 then mn
  else if 100 ≤ percent then mx
  else pyRound ((mn + (mx - mn) * ((percent : ℚ) - 20) / 80) / 100) * 100

/-- `LiquidCtlGUI.rpm_to_percent` (lines 1739–1745).  Source:
`if rpm<=mn: return 20; if rpm>=mx: return 100;
 pct = 20 + ((rpm-mn)/(mx-mn))*80; return int(round(pct/10)*10)`. -/
def rpm_to_percent (mn mx rpm : ℤ) : ℤ :=
  if rpm ≤ mn then 20
  else if mx ≤ rpm then 100
  else pyRound ((20 + (((rpm : ℚ) - mn) / ((mx : ℚ) - mn)) * 80) / 10) * 10

/-- The fan channel RPM range (`self.min_fan_rpm, self.max_fan_rpm = 200, 2000`). -/
def min_fan_rpm : ℤ := 200

/-- The fan channel RPM range (`self.min_fan_rpm, self.max_fan_rpm = 200, 2000`). -/
def max_fan_rpm : ℤ := 2000

/-- The pump RPM range (`self.min_pump_rpm, self.max_pump_rpm = 1000, 2700`). -/
def min_pump_rpm : ℤ := 1000

/-- The pump RPM range (`self.min_pump_rpm, self.max_pump_rpm = 1000, 2700`). -/
def max_pump_rpm : ℤ := 2700

/-! ## Text helpers

Models of the Python string/regex primitives used by the status parsers.
The regular expressions in `LiquidctlGUI.py` are simple enough that each
compiles to a deterministic scanner: greedy `\s*` / `\d+` munching never
needs backtracking because every starred class is followed by a literal
or a digit that the class cannot itself match, and the optional
`(?:speed)?` group can be committed to whenever the literal `speed` is
present (the non-consuming alternative would have to match `\s*\d` at a
position starting with `s`, which is impossible). -/

/-- Python's `\s` class (ASCII part, the only part that can occur here). -/
def pyIsSpace (c : Char) : Bool :=
  c = ' ' ∨ c = '\t' ∨ c = '\n' ∨ c = '\r' ∨ c = '\x0b' ∨ c = '\x0c'

/-- Python's `\d` class (ASCII digits). -/
def pyIsDigit (c : Char) : Bool := '0' ≤ c ∧ c ≤ '9'

/-- Match a literal string at the head of the input; return the rest. -/
def matchLit : List Char → List Char → Option (List Char)
  | [], s => some s
  | _ :: _, [] => none
  | l :: ls, c :: cs => if c = l then matchLit ls cs else none

/-- Greedily munch `\s*`. -/
def skipWs : List Char → List Char
  | [] => []
  | c :: cs => if pyIsSpace c then skipWs cs else c :: cs

/-- Greedily munch `\s*`, keeping the munched prefix (to decide `\s+`). -/
def munchWs : List Char → List Char × List Char
  | [] => ([], [])
  | c :: cs =>
      if pyIsSpace c then
        let (w, r) := munchWs cs
        (c :: w, r)
      else ([], c :: cs)

/-- Greedily munch `\d*`, keeping the munched prefix. -/
def munchDigits : List Char → List Char × List Char
  | [] => ([], [])
  | c :: cs =>
      if pyIsDigit c then
        let (d, r) := munchDigits cs
        (c :: d, r)
      else ([], c :: cs)

/-- Greedily munch `[\d.]*`, keeping the munched prefix. -/
def munchDigitsDot : List Char → List Char × List Char
  | [] => ([], [])
  | c :: cs =>
      if pyIsDigit c ∨ c = '.' then
        let (d, r) := munchDigitsDot cs
        (c :: d, r)
      else ([], c :: cs)

/-- Digits to a natural number, as Python `int` on a digit string. -/
def digitsToNat (ds : List Char) : ℕ :=
  ds.foldl (fun acc c => acc * 10 + (c.toNat - '0'.toNat)) 0

/-- Python `str.strip`: drop leading and trailing whitespace. -/
def pyStrip (s : List Char) : List Char :=
  skipWs ((skipWs s.reverse).reverse)

/-- An unsigned decimal literal `\d*(\.\d*)?` with at least one digit,
consuming the whole input. -/
def pyFloatBody (body : List Char) : Option ℚ :=
  let (ip, r1) := munchDigits body
  match r1 with
  | [] => if ip = [] then none else some (digitsToNat ip)
  | '.' :: r2 =>
      let (fp, r3) := munchDigits r2
      if r3 = [] then
        if ip = [] ∧ fp = [] then none
        else some ((digitsToNat ip : ℚ) + (digitsToNat fp : ℚ) / (10 : ℚ) ^ fp.length)
      else none
  | _ => none

/-- Python `float` on the strings this program feeds it: optionally
signed digits with at most one decimal point, surrounded by optional
whitespace (scientific notation, `inf`/`nan` and underscores never occur
here and are modelled as failures).  Returns `none` exactly when
Python's `float()` would raise. -/
def pyFloat (s : List Char) : Option ℚ :=
  match pyStrip s with
  | '+' :: r => pyFloatBody r
  | '-' :: r => (pyFloatBody r).map Neg.neg
  | r => pyFloatBody r

/-- Lowercase (Python `str.lower`; all characters in play are ASCII). -/
def pyLower (s : List Char) : List Char := s.map Char.toLower

/-- `needle` occurs as a contiguous substring of `hay` (Python `in`). -/
def containsSub (needle : List Char) : List Char → Bool
  | [] => (matchLit needle []).isSome
  | c :: cs => (matchLit needle (c :: cs)).isSome || containsSub needle cs

/-! ## The free-text status parser -/

/-- Attempt of the pattern `fan\s*(?:speed)?\s*(\d+)\s+(\d+)\s*rpm`
anchored at the head of `s`; returns the two captured numbers. -/
def fanTextMatchAt (s : List Char) : Option (ℕ × ℕ) :=
  match matchLit ['f','a','n'] s with
  | none => none
  | some r0 =>
    let r1 := skipWs r0
    let r2 := match matchLit ['s','p','e','e','d'] r1 with
      | some r => skipWs r
      | none => r1
    let (d1, r3) := munchDigits r2
    if d1 = [] then none
    else
      let (w, r4) := munchWs r3
      if w = [] then none
      else
        let (d2, r5) := munchDigits r4
        if d2 = [] then none
        else
          match matchLit ['r','p','m'] (skipWs r5) with
          | some _ => some (digitsToNat d1, digitsToNat d2)
          | none => none

/-- `re.search` of the fan pattern: leftmost successful anchor. -/
def fanTextSearch : List Char → Option (ℕ × ℕ)
  | [] => none
  | c :: cs =>
    match fanTextMatchAt (c :: cs) with
    | some r => some r
    | none => fanTextSearch cs

/-- Attempt of `pump\s*(?:speed)?\s*(\d+)\s*rpm` anchored at the head. -/
def pumpTextMatchAt (s : List Char) : Option ℕ :=
  match matchLit ['p','u','m','p'] s with
  | none => none
  | some r0 =>
    let r1 := skipWs r0
    let r2 := match matchLit ['s','p','e','e','d'] r1 with
      | some r => skipWs r
      | none => r1
    let (d1, r3) := munchDigits r2
    if d1 = [] then none
    else
      match matchLit ['r','p','m'] (skipWs r3) with
      | some _ => some (digitsToNat d1)
      | none => none

/-- `re.search` of the pump pattern. -/
def pumpTextSearch : List Char → Option ℕ
  | [] => none
  | c :: cs =>
    match pumpTextMatchAt (c :: cs) with
    | some r => some r
    | none => pumpTextSearch cs

/-- Attempt of `(water|liquid|coolant)\s*temperature\s+([\d.]+)\s*°?c`
anchored at the head; returns the captured `[\d.]+` characters. -/
def waterTextMatchAt (s : List Char) : Option (List Char) :=
  let afterWord :=
    match matchLit ['w','a','t','e','r'] s with
    | some r => some r
    | none =>
      match matchLit ['l','i','q','u','i','d'] s with
      | some r => some r
      | none => matchLit ['c','o','o','l','a','n','t'] s
  match afterWord with
  | none => none
  | some r0 =>
    match matchLit ['t','e','m','p','e','r','a','t','u','r','e'] (skipWs r0) with
    | none => none
    | some r1 =>
      let (w, r2) := munchWs r1
      if w = [] then none
      else
        let (cap, r3) := munchDigitsDot r2
        if cap = [] then none
        else
          let r4 := skipWs r3
          let r5 := match matchLit ['°'] r4 with
            | some r => r
            | none => r4
          match matchLit ['c'] r5 with
          | some _ => some cap
          | none => none

/-- `re.search` of the water-temperature pattern. -/
def waterTextSearch : List Char → Option (List Char)
  | [] => none
  | c :: cs =>
    match waterTextMatchAt (c :: cs) with
    | some r => some r
    | none => waterTextSearch cs

/-- Fan maps are Python dicts `{index → (duty percent, rpm)}`; insertion
overwrites an existing key in place (Python dict semantics). -/
abbrev FanMap : Type := List (ℕ × ℤ × ℤ)

/-- Python `d[k] = v`: overwrite in place, else append. -/
def dictInsert (k : ℕ) (v : ℤ × ℤ) : FanMap → FanMap
  | [] => [(k, v)]
  | (k', v') :: rest =>
      if k' = k then (k, v) :: rest else (k', v') :: dictInsert k v rest

/-- Python `d.get(k)` / `k in d`. -/
def dictLookup (k : ℕ) : FanMap → Option (ℤ × ℤ)
  | [] => none
  | (k', v') :: rest => if k' = k then some v' else dictLookup k rest

/-- The triple handed from each parser to `_update_ui_from_maps`:
`fan_map`, `pump`, `water_temp`. -/
structure ParseResult where
  fans : FanMap
  pump : Option (ℤ × ℤ)
  wtemp : Option ℚ
deriving DecidableEq

/-- One loop iteration of `LiquidCtlGUI._parse_text_and_update`
(lines 1349–1377) on an already `.strip().lower()`-ed line. -/
def parseTextLine (st : ParseResult) (l : List Char) : ParseResult :=
  match fanTextSearch l with
  | some (idx, rpm) =>
      { st with fans := dictInsert idx (rpm_to_percent min_fan_rpm max_fan_rpm rpm, rpm) st.fans }
  | none =>
    match pumpTextSearch l with
    | some rpm =>
        { st with pump := some (rpm_to_percent min_pump_rpm max_pump_rpm rpm, rpm) }
    | none =>
      match waterTextSearch l with
      | some cap =>
          match pyFloat cap with
          | some q => { st with wtemp := some q }
          | none => st
      | none => st

/-- Split a character list at every occurrence of `sep`. -/
def splitListOn (sep : Char) : List Char → List (List Char)
  | [] => [[]]
  | c :: cs =>
      if c = sep then [] :: splitListOn sep cs
      else
        match splitListOn sep cs with
        | [] => [[c]]
        | l :: ls => (c :: l) :: ls

/-- Python `str.splitlines` for `\n`-separated text (the only line
terminator `liquidctl` emits). -/
def splitLines (txt : String) : List (List Char) :=
  splitListOn '\n' txt.toList

/-- `LiquidCtlGUI._parse_text_and_update` (lines 1347–1378), up to the
final `_update_ui_from_maps` call: parse free text into the fan map,
pump reading and water temperature. -/
def parse_text_and_update (txt : String) : ParseResult :=
  (splitLines txt).foldl
    (fun st line => parseTextLine st (pyLower (pyStrip line)))
    ⟨[], none, none⟩

/-! ## The JSON status parser -/

/-- A JSON value as it can appear in a `liquidctl status --json` record's
`value` field.  `bool` is separate because Python's `bool` is an `int`
(so `isinstance(val, (int, float))` holds for it). -/
inductive JVal where
  | num (q : ℚ)
  | str (s : String)
  | bool (b : Bool)
  | null
deriving DecidableEq

/-- One `{key, value, unit}` record of a status block (the `unit` field
is never read by the parser). -/
structure Entry where
  key : String
  value : JVal
deriving DecidableEq

/-- One block of the `status --json` output: a JSON object with a
`status` list of records, or some other JSON value (skipped). -/
inductive Block where
  | dict (status : List Entry)
  | other
deriving DecidableEq

/-- `LiquidCtlGUI._iter_status_entries` (lines 1087–1092). -/
def iter_status_entries (status_data : List Block) : List Entry :=
  status_data.foldr
    (fun b acc => match b with | .dict s => s ++ acc | .other => acc) []

/-- `int(val) if isinstance(val, (int, float)) else int(float(val))`,
returning `none` when the coercion raises. -/
def pyCoerceInt (v : JVal) : Option ℤ :=
  match v with
  | .num q => some (pyInt q)
  | .bool b => some (if b then 1 else 0)
  | .str s => (pyFloat s.toList).map pyInt
  | .null => none

/-- `float(val)`, returning `none` when it raises. -/
def pyCoerceFloat (v : JVal) : Option ℚ :=
  match v with
  | .num q => some q
  | .bool b => some (if b then 1 else 0)
  | .str s => pyFloat s.toList
  | .null => none

/-- Attempt of `fan\s*(?:speed)?\s*(\d+)` anchored at the head. -/
def fanKeyMatchAt (s : List Char) : Option ℕ :=
  match matchLit ['f','a','n'] s with
  | none => none
  | some r0 =>
    let r1 := skipWs r0
    let r2 := match matchLit ['s','p','e','e','d'] r1 with
      | some r => skipWs r
      | none => r1
    let (d1, _) := munchDigits r2
    if d1 = [] then none else some (digitsToNat d1)

/-- `re.search(r'fan\s*(?:speed)?\s*(\d+)', key)`. -/
def fanKeySearch : List Char → Option ℕ
  | [] => none
  | c :: cs =>
    match fanKeyMatchAt (c :: cs) with
    | some r => some r
    | none => fanKeySearch cs

/-- The fan branch of the JSON parser: the `'fan' in key and 'speed' in
key` guard followed by the index-extracting regex; `some idx` exactly
when the branch records a fan reading (and `continue`s). -/
def jsonFanIdx (key : List Char) : Option ℕ :=
  if containsSub ['f','a','n'] key && containsSub ['s','p','e','e','d'] key then
    fanKeySearch key
  else none

/-- The `'pump' in key and 'speed' in key` guard. -/
def jsonIsPumpKey (key : List Char) : Bool :=
  containsSub ['p','u','m','p'] key && containsSub ['s','p','e','e','d'] key

/-- The water-temperature guard: any of `water temperature`,
`liquid temperature`, `coolant temperature` occurs in the key. -/
def jsonIsWaterKey (key : List Char) : Bool :=
  containsSub "water temperature".toList key ||
  containsSub "liquid temperature".toList key ||
  containsSub "coolant temperature".toList key

/-- One loop iteration of `LiquidCtlGUI._parse_json_and_update`
(lines 1310–1344).  A failed RPM coercion yields `rpm = 0`; the entry is
still recorded.  A failed temperature coercion leaves `wtemp` as it was. -/
def parseJsonEntry (st : ParseResult) (it : Entry) : ParseResult :=
  let key := pyLower it.key.toList
  match jsonFanIdx key with
  | some idx =>
      let rpm := (pyCoerceInt it.value).getD 0
      { st with fans := dictInsert idx (rpm_to_percent min_fan_rpm max_fan_rpm rpm, rpm) st.fans }
  | none =>
    if jsonIsPumpKey key then
      let rpm := (pyCoerceInt it.value).getD 0
      { st with pump := some (rpm_to_percent min_pump_rpm max_pump_rpm rpm, rpm) }
    else if jsonIsWaterKey key then
      match pyCoerceFloat it.value with
      | some q => { st with wtemp := some q }
      | none => st
    else st

/-- `LiquidCtlGUI._parse_json_and_update` (lines 1308–1345), up to the
final `_update_ui_from_maps` call. -/
def parse_json_and_update (status_data : List Block) : ParseResult :=
  (iter_status_entries status_data).foldl parseJsonEntry ⟨[], none, none⟩

/-! ## `update_status`, CLI branch -/

/-- The result of one `run_cmd` subprocess invocation.
`run_logged`/`run_cmd` only raise on timeout (no `check=True` is passed
in `update_status`), which is modelled by wrapping in `Option` at the
call sites below; a non-zero exit code does *not* raise. -/
structure ProcResult where
  returncode : ℤ
  stdout : String
deriving DecidableEq

/-- Which branch of `update_status` produced the parse (set
`status_parsed`), or that both failed and only a status message was
shown (no exception propagates). -/
inductive UpdateOutcome where
  | viaJson (r : ParseResult)
  | viaText (r : ParseResult)
  | statusMessage
deriving DecidableEq

/-- The fallback body of `update_status`: run the text-mode call and
parse its stdout; on timeout show an error message. -/
def update_status_text_fallback (textCall : Option ProcResult) : UpdateOutcome :=
  match textCall with
  | some r2 => .viaText (parse_text_and_update r2.stdout)
  | none => .statusMessage

/-- The CLI branch of `LiquidCtlGUI.update_status` (lines 1254–1266).
`decode` models `json.loads` (`none` = raises on invalid JSON);
`jsonCall`/`textCall` model the two `run_logged` invocations (`none` =
the invocation raised, i.e. timed out).  Source:
`res = run_logged([... "status","--json"]); data = json.loads(res.stdout)
 if res.stdout else []; _parse_json_and_update(data)` with the whole
block wrapped in `try/except` falling back to the text-mode call. -/
def update_status_cli (decode : String → Option (List Block))
    (jsonCall textCall : Option ProcResult) : UpdateOutcome :=
  match jsonCall with
  | none => update_status_text_fallback textCall
  | some r =>
    if r.stdout = "" then .viaJson (parse_json_and_update [])
    else
      match decode r.stdout with
      | some data => .viaJson (parse_json_and_update data)
      | none => update_status_text_fallback textCall

/-! ## The curve evaluator -/

/-- The ordering used by `sorted(points, key=lambda x: x[0])`: compare
temperatures only.  Python's `sorted` is stable; `List.insertionSort`
with this relation is the same stable sort. -/
def curveLe (a b : ℚ × ℤ) : Prop := a.1 ≤ b.1

instance : DecidableRel curveLe := fun a b => inferInstanceAs (Decidable (a.1 ≤ b.1))

instance : IsTotal (ℚ × ℤ) curveLe := ⟨fun a b => le_total a.1 b.1⟩

instance : IsTrans (ℚ × ℤ) curveLe := ⟨fun _ _ _ h h' => le_trans h h'⟩

/-- The segment scan of `_curve_value`:
`for (t1,p1),(t2,p2) in zip(pts, pts[1:]): if t1 <= temp <= t2: ...`,
returning `none` when no segment brackets `temp` (the loop falls
through). -/
def scanSegs (temp : ℚ) : List (ℚ × ℤ) → Option ℤ
  | (t1, p1) :: (t2, p2) :: rest =>
      if t1 ≤ temp ∧ temp ≤ t2 then
        some (if t2 = t1 then p2
              else pyRound ((p1 : ℚ) + (temp - t1) / (t2 - t1) * ((p2 : ℚ) - p1)))
      else scanSegs temp ((t2, p2) :: rest)
  | _ => none

/-- The body of `_curve_value` after sorting: the two boundary checks
(`temp <= pts[0][0]`, `temp >= pts[-1][0]`), the segment scan, and the
fall-through `return pts[-1][1]`. -/
def curveEvalSorted (temp : ℚ) : List (ℚ × ℤ) → ℤ
  | [] => 0
  | first :: rest =>
    let lastp := (first :: rest).getLast (List.cons_ne_nil _ _)
    if temp ≤ first.1 then first.2
    else if lastp.1 ≤ temp then lastp.2
    else
      match scanSegs temp (first :: rest) with
      | some v => v
      | none => lastp.2

/-- `LiquidCtlGUI._curve_value` (lines 1295–1306). -/
def curve_value (points : List (ℚ × ℤ)) (temp : ℚ) : ℤ :=
  curveEvalSorted temp (points.insertionSort curveLe)

/-! ## The safety / emergency-boost state machine -/

/-- The `safety` configuration dict (thresholds are read back through
`float(...)`, so they are rationals here). -/
structure SafetyConf where
  enabled : Bool
  cpu_crit : ℚ
  water_crit : ℚ
  hysteresis : ℚ
deriving DecidableEq

/-- The pre-boost snapshot `self._preboost`. -/
structure Snapshot where
  fans : List ℤ
  pump : ℤ
deriving DecidableEq

/-- The state read and written by `check_safety_boost` /
`_restore_from_boost`: the slider duties, the pump-presence flags, the
boost flag and the snapshot. -/
structure BoostState where
  safety : SafetyConf
  fan_sliders : List ℤ
  pump_slider : ℤ
  have_pump : Bool
  pump_supported : Bool
  boost_active : Bool
  preboost : Option Snapshot
deriving DecidableEq

/-- The fan-restoring loop of `_restore_from_boost`:
`for i, val in enumerate(preboost["fans"]): if i < len(fan_sliders):
fan_sliders[i].setValue(val)` — positions beyond either list keep their
value. -/
def restoreFans : List ℤ → List ℤ → List ℤ
  | sliders, [] => sliders
  | [], _ => []
  | _ :: ss, v :: vs => v :: restoreFans ss vs

/-- `LiquidCtlGUI._restore_from_boost` (lines 1485–1500). -/
def restore_from_boost (s : BoostState) : BoostState :=
  match s.preboost with
  | none => { s with boost_active := false }
  | some pb =>
    let s1 := { s with fan_sliders := restoreFans s.fan_sliders pb.fans }
    let s2 :=
      if s1.have_pump && s1.pump_supported then { s1 with pump_slider := pb.pump } else s1
    { s2 with boost_active := false, preboost := none }

/-- The `over` flag of `check_safety_boost` (lines 1467–1469): a known
temperature at or above its critical threshold. -/
def overB (conf : SafetyConf) (cpu_temp water_temp : Option ℚ) : Bool :=
  (match cpu_temp with
    | some c => decide (conf.cpu_crit ≤ c)
    | none => false) ||
  (match water_temp with
    | some w => decide (conf.water_crit ≤ w)
    | none => false)

/-- The `below_cpu and below_wat` exit test (lines 1480–1482): each
temperature unknown or at or below its threshold minus the hysteresis. -/
def belowB (conf : SafetyConf) (cpu_temp water_temp : Option ℚ) : Bool :=
  (match cpu_temp with
    | none => true
    | some c => decide (c ≤ conf.cpu_crit - conf.hysteresis)) &&
  (match water_temp with
    | none => true
    | some w => decide (w ≤ conf.water_crit - conf.hysteresis))

/-- The boost-entry block (lines 1470–1478): capture the snapshot of the
current duties *first*, then command all fans (and the pump, when
present and supported) to 100 %. -/
def boostEntry (s : BoostState) : BoostState :=
  let pb : Snapshot := ⟨s.fan_sliders, s.pump_slider⟩
  let s1 := { s with fan_sliders := s.fan_sliders.map fun _ => 100 }
  let s2 :=
    if s1.have_pump && s1.pump_supported then { s1 with pump_slider := 100 } else s1
  { s2 with preboost := some pb, boost_active := true }

/-- `LiquidCtlGUI.check_safety_boost` (lines 1463–1483), as a transition
on `BoostState` given the current CPU and water temperatures (`none` =
reading unavailable). -/
def check_safety_boost (s : BoostState) (cpu_temp water_temp : Option ℚ) : BoostState :=
  if !s.safety.enabled then
    if s.boost_active then restore_from_boost s else s
  else if overB s.safety cpu_temp water_temp && !s.boost_active then
    boostEntry s
  else if s.boost_active && !(overB s.safety cpu_temp water_temp) then
    if belowB s.safety cpu_temp water_temp then restore_from_boost s else s
  else s

/-! ## The command dispatcher's candidate list -/

/-- `LiquidCtlGUI._candidate_set_cmds` (lines 1550–1598).  `desc` is the
selected device's `description`; `index` is `None` for "all fans". -/
def candidate_set_cmds (desc : String) (kind : String) (index : Option ℤ)
    (percent : ℤ) : List (List String) :=
  let p := toString percent
  if kind = "fan" then
    let channels : List String :=
      match index with
      | some i => ["fan" ++ toString i, "fan " ++ toString i]
      | none => ["fans", "fan"]
    channels.foldr
      (fun ch acc =>
        ["liquidctl", "-m", desc, "set", ch, "speed", p] ::
        ["liquidctl", "-m", desc, "set", ch, "duty", p] :: acc) []
  else if kind = "pump" then
    [["liquidctl", "-m", desc, "set", "pump", "speed", p],
     ["liquidctl", "-m", desc, "set", "pump", "duty", p]]
  else []

/-! ## The poll-driven UI refresh -/

/-- The state read and written by `_update_ui_from_maps`: slider values,
the per-channel user-override records (`user_set_fan_speeds` maps a fan
id to `(percent, timestamp)`; absent = never touched), and the pump
flags. -/
structure UiState where
  fan_count : ℕ
  fan_sliders : List ℤ
  user_set_fan_speeds : ℕ → Option (ℤ × ℚ)
  pump_slider : ℤ
  user_set_pump_speed : Option (ℤ × ℚ)
  have_pump : Bool
  pump_supported : Bool

/-- `max(fan_map.keys())` (callers guarantee the map is non-empty). -/
def maxKey (m : FanMap) : ℕ := m.foldl (fun acc kv => max acc kv.1) 0

/-- The fan-count check of `_update_ui_from_maps` (lines 1426–1431): a
non-empty map whose maximum index differs from `fan_count` makes
`add_fan_controls` rebuild the slider widgets, whose values start at 0. -/
def rebuildIfNeeded (fan_map : FanMap) (s : UiState) : UiState :=
  match fan_map with
  | [] => s
  | _ =>
    let max_idx := maxKey fan_map
    if max_idx ≠ s.fan_count then
      { s with fan_count := max_idx, fan_sliders := List.replicate max_idx 0 }
    else s

/-- The per-fan refresh loop (lines 1433–1444): a reported duty
overwrites slider `i` unless the user's override record for `i` is
younger than 3 seconds. -/
def refreshFanSliders (now : ℚ) (fan_map : FanMap) (s : UiState) : List ℤ :=
  (List.range s.fan_count).map fun j =>
    let cur := s.fan_sliders.getD j 0
    match dictLookup (j + 1) fan_map with
    | none => cur
    | some (pct, _) =>
      match s.user_set_fan_speeds (j + 1) with
      | none => pct
      | some (_, t) => if now - t > 3 then pct else cur

/-- The pump refresh (lines 1446–1452). -/
def refreshPump (now : ℚ) (pump : Option (ℤ × ℤ)) (s : UiState) : UiState :=
  if s.have_pump && s.pump_supported then
    match pump with
    | some (ppct, _) =>
      match s.user_set_pump_speed with
      | none => { s with pump_slider := ppct }
      | some (_, t) =>
          if now - t > 3 then { s with pump_slider := ppct } else s
    | none => s
  else s

/-- `LiquidCtlGUI._update_ui_from_maps` (lines 1424–1454), restricted to
the state above (inline labels, config saving and the all-fans slider
sync don't feed back into slider values). -/
def update_ui_from_maps (now : ℚ) (fan_map : FanMap) (pump : Option (ℤ × ℤ))
    (s : UiState) : UiState :=
  let s1 := rebuildIfNeeded fan_map s
  refreshPump now pump { s1 with fan_sliders := refreshFanSliders now fan_map s1 }

/-- `LiquidCtlGUI.adjust_fan_speed` (lines 1690–1699), restricted to its
effect on the slider and the override record (the unlinked case):
quantize to a multiple of 10, set the slider, record
`user_set_fan_speeds[fan_id] = (pct, now)`. -/
def adjust_fan_speed (now : ℚ) (fan_id : ℕ) (value : ℤ) (s : UiState) : UiState :=
  let pct := pyRound ((value : ℚ) / 10) * 10
  { s with
    fan_sliders := s.fan_sliders.set (fan_id - 1) pct
    user_set_fan_speeds := fun i =>
      if i = fan_id then some (pct, now) else s.user_set_fan_speeds i }

/-! ## Helper lemmas -/

theorem ratFloor_eq_intFloor (q : ℚ) : q.floor = ⌊q⌋ := by
  rw [Rat.floor_def', Rat.floor_def]

theorem pyRound_eq_floorForm (q : ℚ) :
    pyRound q =
      if q - ⌊q⌋ < 1/2 then ⌊q⌋
      else if 1/2 < q - ⌊q⌋ then ⌊q⌋ + 1
      else if ⌊q⌋ % 2 = 0 then ⌊q⌋ else ⌊q⌋ + 1 := by
  simp only [pyRound, ratFloor_eq_intFloor]

theorem pyRound_intCast (n : ℤ) : pyRound (n : ℚ) = n := by
  rw [pyRound_eq_floorForm]
  norm_num [Int.floor_intCast]

theorem pyRound_mono {a b : ℚ} (hab : a ≤ b) : pyRound a ≤ pyRound b := by
  rw [pyRound_eq_floorForm, pyRound_eq_floorForm]
  rcases lt_or_eq_of_le (Int.floor_le_floor hab) with hf | hf
  · split_ifs <;> omega
  · rw [← hf]
    have hkey : a - (⌊a⌋ : ℚ) ≤ b - (⌊a⌋ : ℚ) := by linarith
    split_ifs <;> first | omega | (exfalso; linarith)

theorem int_le_pyRound {k : ℤ} {q : ℚ} (h : (k : ℚ) ≤ q) : k ≤ pyRound q := by
  have := pyRound_mono h
  rwa [pyRound_intCast] at this

theorem pyRound_le_int {q : ℚ} {k : ℤ} (h : q ≤ (k : ℚ)) : pyRound q ≤ k := by
  have := pyRound_mono h
  rwa [pyRound_intCast] at this

theorem percent_to_rpm_mono {mn mx : ℤ} (hmn : mn ≤ mx)
    (hdn : (100 : ℤ) ∣ mn) (hdx : (100 : ℤ) ∣ mx)
    {p q : ℤ} (hpq : p ≤ q) :
    percent_to_rpm mn mx p ≤ percent_to_rpm mn mx q := by
  obtain ⟨a, ha⟩ := hdn
  obtain ⟨b, hb⟩ := hdx
  have hmnq : (mn : ℚ) ≤ (mx : ℚ) := by exact_mod_cast hmn
  have hlo : ∀ t : ℤ, 20 < t → ¬ 100 ≤ t →
      mn ≤ pyRound ((mn + ((mx : ℚ) - mn) * ((t : ℚ) - 20) / 80) / 100) * 100 := by
    intro t ht _
    have htq : (20 : ℚ) ≤ (t : ℚ) := by exact_mod_cast le_of_lt ht
    have hnn : (0 : ℚ) ≤ ((mx : ℚ) - mn) * ((t : ℚ) - 20) :=
      mul_nonneg (by linarith) (by linarith)
    have hval : (a : ℚ) ≤ (mn + ((mx : ℚ) - mn) * ((t : ℚ) - 20) / 80) / 100 := by
      have : (mn : ℚ) = 100 * a := by exact_mod_cast ha
      linarith
    have := int_le_pyRound hval
    calc mn = a * 100 := by omega
    _ ≤ pyRound ((mn + ((mx : ℚ) - mn) * ((t : ℚ) - 20) / 80) / 100) * 100 := by
          exact mul_le_mul_of_nonneg_right this (by norm_num)
  have hhi : ∀ t : ℤ, 20 < t → ¬ 100 ≤ t →
      pyRound ((mn + ((mx : ℚ) - mn) * ((t : ℚ) - 20) / 80) / 100) * 100 ≤ mx := by
    intro t _ ht
    have htq : (t : ℚ) ≤ (100 : ℚ) := by exact_mod_cast le_of_lt (lt_of_not_le ht)
    have hub : ((mx : ℚ) - mn) * ((t : ℚ) - 20) ≤ ((mx : ℚ) - mn) * 80 :=
      mul_le_mul_of_nonneg_left (by linarith) (by linarith)
    have hval : (mn + ((mx : ℚ) - mn) * ((t : ℚ) - 20) / 80) / 100 ≤ (b : ℚ) := by
      have : (mx : ℚ) = 100 * b := by exact_mod_cast hb
      linarith
    have := pyRound_le_int hval
    calc pyRound ((mn + ((mx : ℚ) - mn) * ((t : ℚ) - 20) / 80) / 100) * 100 ≤ b * 100 :=
          mul_le_mul_of_nonneg_right this (by norm_num)
    _ = mx := by omega
  unfold percent_to_rpm
  by_cases hp20 : p ≤ 20
  · by_cases hq20 : q ≤ 20
    · simp [hp20, hq20]
    · by_cases hq100 : 100 ≤ q
      · simp [hp20, hq20, hq100, hmn]
      · simpa [hp20, hq20, hq100] using hlo q (by omega) hq100
  · by_cases hp100 : 100 ≤ p
    · have hq100 : 100 ≤ q := le_trans hp100 hpq
      simp [hp20, hp100, show ¬ q ≤ 20 by omega, hq100]
    · by_cases hq100 : 100 ≤ q
      · simpa [hp20, hp100, show ¬ q ≤ 20 by omega, hq100] using
          hhi p (by omega) hp100
      · have hq20 : ¬ q ≤ 20 := by omega
        simp only [if_neg hp20, if_neg hp100, if_neg hq20, if_neg hq100]
        have hmono : ((mn : ℚ) + ((mx : ℚ) - mn) * ((p : ℚ) - 20) / 80) / 100 ≤
            ((mn : ℚ) + ((mx : ℚ) - mn) * ((q : ℚ) - 20) / 80) / 100 := by
          have hpq' : (p : ℚ) ≤ (q : ℚ) := by exact_mod_cast hpq
          have := mul_le_mul_of_nonneg_left (show (p : ℚ) - 20 ≤ (q : ℚ) - 20 by linarith)
            (show (0 : ℚ) ≤ (mx : ℚ) - mn by linarith)
          linarith
        exact mul_le_mul_of_nonneg_right (pyRound_mono hmono) (by norm_num)

theorem rpm_to_percent_mono {mn mx : ℤ} (hmn : mn ≤ mx) {r s : ℤ} (hrs : r ≤ s) :
    rpm_to_percent mn mx r ≤ rpm_to_percent mn mx s := by
  have hlo : ∀ t : ℤ, ¬ t ≤ mn → ¬ mx ≤ t →
      20 ≤ pyRound ((20 + (((t : ℚ) - mn) / ((mx : ℚ) - mn)) * 80) / 10) * 10 := by
    intro t ht hx
    have h1 : (mn : ℚ) < (t : ℚ) := by exact_mod_cast lt_of_not_le ht
    have h2 : (t : ℚ) < (mx : ℚ) := by exact_mod_cast lt_of_not_le hx
    have hpos : (0 : ℚ) < (mx : ℚ) - mn := by linarith
    have hnn : (0 : ℚ) ≤ ((t : ℚ) - mn) / ((mx : ℚ) - mn) :=
      div_nonneg (by linarith) (le_of_lt hpos)
    have hval : (((2 : ℤ) : ℚ)) ≤ (20 + (((t : ℚ) - mn) / ((mx : ℚ) - mn)) * 80) / 10 := by
      push_cast
      nlinarith
    have := int_le_pyRound hval
    omega
  have hhi : ∀ t : ℤ, ¬ t ≤ mn → ¬ mx ≤ t →
      pyRound ((20 + (((t : ℚ) - mn) / ((mx : ℚ) - mn)) * 80) / 10) * 10 ≤ 100 := by
    intro t ht hx
    have h1 : (mn : ℚ) < (t : ℚ) := by exact_mod_cast lt_of_not_le ht
    have h2 : (t : ℚ) < (mx : ℚ) := by exact_mod_cast lt_of_not_le hx
    have hpos : (0 : ℚ) < (mx : ℚ) - mn := by linarith
    have hle1 : ((t : ℚ) - mn) / ((mx : ℚ) - mn) ≤ 1 :=
      (div_le_one hpos).mpr (by linarith)
    have hval : (20 + (((t : ℚ) - mn) / ((mx : ℚ) - mn)) * 80) / 10 ≤ ((10 : ℤ) : ℚ) := by
      push_cast
      nlinarith
    have := pyRound_le_int hval
    omega
  unfold rpm_to_percent
  by_cases hr : r ≤ mn
  · by_cases hs : s ≤ mn
    · simp [hr, hs]
    · by_cases hs' : mx ≤ s
      · simp [hr, hs, hs']
      · simpa [hr, hs, hs'] using hlo s hs hs'
  · by_cases hr' : mx ≤ r
    · have hs' : mx ≤ s := le_trans hr' hrs
      simp [hr, hr', show ¬ s ≤ mn by omega, hs']
    · by_cases hs' : mx ≤ s
      · simpa [hr, hr', show ¬ s ≤ mn by omega, hs'] using hhi r hr hr'
      · have hs : ¬ s ≤ mn := by omega
        simp only [if_neg hr, if_neg hr', if_neg hs, if_neg hs']
        have h1 : (mn : ℚ) < (r : ℚ) := by exact_mod_cast lt_of_not_le hr
        have h2 : (r : ℚ) < (mx : ℚ) := by exact_mod_cast lt_of_not_le hr'
        have hpos : (0 : ℚ) < (mx : ℚ) - mn := by linarith
        have hmono : (20 + (((r : ℚ) - mn) / ((mx : ℚ) - mn)) * 80) / 10 ≤
            (20 + (((s : ℚ) - mn) / ((mx : ℚ) - mn)) * 80) / 10 := by
          have hrs' : (r : ℚ) ≤ (s : ℚ) := by exact_mod_cast hrs
          have := (div_le_div_iff_of_pos_right hpos).mpr
            (show (r : ℚ) - mn ≤ (s : ℚ) - mn by linarith)
          linarith
        exact mul_le_mul_of_nonneg_right (pyRound_mono hmono) (by norm_num)

/-- The spec's boost-entry condition: a known CPU temperature ≥
`cpu_crit`, or a known water temperature ≥ `water_crit`. -/
def overThreshold (conf : SafetyConf) (cpu water : Option ℚ) : Prop :=
  (∃ c, cpu = some c ∧ conf.cpu_crit ≤ c) ∨ (∃ w, water = some w ∧ conf.water_crit ≤ w)

/-- The spec's boost-exit condition: the CPU temperature is unknown or ≤
`cpu_crit − hysteresis`, AND the water temperature is unknown or ≤
`water_crit − hysteresis`. -/
def cooledDown (conf : SafetyConf) (cpu water : Option ℚ) : Prop :=
  (cpu = none ∨ ∃ c, cpu = some c ∧ c ≤ conf.cpu_crit - conf.hysteresis) ∧
  (water = none ∨ ∃ w, water = some w ∧ w ≤ conf.water_crit - conf.hysteresis)

theorem overB_iff (conf : SafetyConf) (cpu water : Option ℚ) :
    overB conf cpu water = true ↔ overThreshold conf cpu water := by
  cases cpu <;> cases water <;> simp [overB, overThreshold]

theorem belowB_iff (conf : SafetyConf) (cpu water : Option ℚ) :
    belowB conf cpu water = true ↔ cooledDown conf cpu water := by
  cases cpu <;> cases water <;> simp [belowB, cooledDown]

theorem restoreFans_of_length_eq : ∀ (sliders fans : List ℤ),
    fans.length = sliders.length → restoreFans sliders fans = fans := by
  intro sliders
  induction sliders with
  | nil =>
    intro fans h
    cases fans with
    | nil => rfl
    | cons f fs => simp at h
  | cons a ss ih =>
    intro fans h
    cases fans with
    | nil => simp at h
    | cons f fs =>
      simp only [restoreFans]
      rw [ih fs (by simpa using h)]

/-! ## Claim theorems -/

/-- C1 (counterexample): on the four-line colon-formatted input claimed by
the spec, `_parse_text_and_update` extracts nothing at all — the fan and
pump patterns require a trailing `rpm` and the temperature pattern a
trailing `c`, none of which the claimed lines contain — so the result is
not the claimed fan map / pump reading / water temperature. -/
theorem C1_cex :
    parse_text_and_update
        "Fan 1 Speed: 800\nFan 2 Speed: 1000\nPump Speed: 2500\nWater Temperature: 31.5" =
      ⟨[], none, none⟩ ∧
    (⟨[], none, none⟩ : ParseResult) ≠
      ⟨[(1, (50, 800)), (2, (60, 1000))], some (90, 2500), some (63/2)⟩ := by
  decide

/-- C1 (amended): on the `liquidctl`-style four-line input
`Fan speed 1 800 rpm` / `Fan speed 2 1000 rpm` / `Pump speed 2500 rpm` /
`Water temperature 31.5 °C`, `_parse_text_and_update` produces the fan map
`{1: (50, 800), 2: (60, 1000)}`, the pump reading `(90, 2500)`, and water
temperature `31.5` (with fan range 200–2000 and pump range 1000–2700). -/
theorem C1_amended_parse :
    parse_text_and_update
        "Fan speed 1 800 rpm\nFan speed 2 1000 rpm\nPump speed 2500 rpm\nWater temperature 31.5 °C" =
      ⟨[(1, (50, 800)), (2, (60, 1000))], some (90, 2500), some (63/2)⟩ := by
  decide

/-- C3 (counterexample): for a fan with known index 1 the candidate list
consists of exactly the four indexed commands; no aggregate all-fans
channel name (`fans` or the legacy `fan` alias) appears anywhere in it,
contrary to the claimed trailing aggregate fallback. -/
theorem C3_cex :
    candidate_set_cmds "NZXT Kraken" "fan" (some 1) 50 =
      [["liquidctl", "-m", "NZXT Kraken", "set", "fan1", "speed", "50"],
       ["liquidctl", "-m", "NZXT Kraken", "set", "fan1", "duty", "50"],
       ["liquidctl", "-m", "NZXT Kraken", "set", "fan 1", "speed", "50"],
       ["liquidctl", "-m", "NZXT Kraken", "set", "fan 1", "duty", "50"]] ∧
    ((candidate_set_cmds "NZXT Kraken" "fan" (some 1) 50).flatten.contains "fans" = false) ∧
    ((candidate_set_cmds "NZXT Kraken" "fan" (some 1) 50).flatten.contains "fan" = false) := by
  decide

/-- C3 (amended): for a fan with a known index the candidate list is
exactly the compact (`fan<i>`) and spaced (`fan <i>`) channel names, each
under the `speed` verb then the `duty` verb, in that order; the aggregate
all-fans channel names (`fans`, then the legacy alias `fan`) under both
verbs are produced only when no index is given; a pump gets the single
`pump` channel under `speed` then `duty`. -/
theorem C3_amended_cmds (desc : String) (i percent : ℤ) :
    candidate_set_cmds desc "fan" (some i) percent =
      [["liquidctl", "-m", desc, "set", "fan" ++ toString i, "speed", toString percent],
       ["liquidctl", "-m", desc, "set", "fan" ++ toString i, "duty", toString percent],
       ["liquidctl", "-m", desc, "set", "fan " ++ toString i, "speed", toString percent],
       ["liquidctl", "-m", desc, "set", "fan " ++ toString i, "duty", toString percent]] ∧
    candidate_set_cmds desc "fan" none percent =
      [["liquidctl", "-m", desc, "set", "fans", "speed", toString percent],
       ["liquidctl", "-m", desc, "set", "fans", "duty", toString percent],
       ["liquidctl", "-m", desc, "set", "fan", "speed", toString percent],
       ["liquidctl", "-m", desc, "set", "fan", "duty", toString percent]] ∧
    candidate_set_cmds desc "pump" none percent =
      [["liquidctl", "-m", desc, "set", "pump", "speed", toString percent],
       ["liquidctl", "-m", desc, "set", "pump", "duty", toString percent]] := by
  refine ⟨rfl, rfl, rfl⟩

/-- C3 witness: the amended candidate list at a concrete device, index
and duty. -/
theorem C3_amended_cmds_witness :
    candidate_set_cmds "dev" "fan" (some 2) 30 =
      [["liquidctl", "-m", "dev", "set", "fan2", "speed", "30"],
       ["liquidctl", "-m", "dev", "set", "fan2", "duty", "30"],
       ["liquidctl", "-m", "dev", "set", "fan 2", "speed", "30"],
       ["liquidctl", "-m", "dev", "set", "fan 2", "duty", "30"]] :=
  ((C3_amended_cmds "dev" 2 30).1).trans (by decide)

/-- C6: for every duty on the canonical grid `{20, 30, ..., 100}` and for
both the fan parameters (200–2000) and the pump parameters (1000–2700),
`rpm_to_percent (percent_to_rpm duty)` equals `duty` exactly, even though
the two functions round independently to the nearest 100 RPM and the
nearest 10 duty points. -/
theorem C6_round_trip_grid :
    ∀ d : ℤ, d ∈ ([20, 30, 40, 50, 60, 70, 80, 90, 100] : List ℤ) →
      rpm_to_percent min_fan_rpm max_fan_rpm (percent_to_rpm min_fan_rpm max_fan_rpm d) = d ∧
      rpm_to_percent min_pump_rpm max_pump_rpm (percent_to_rpm min_pump_rpm max_pump_rpm d) = d := by
  decide

/-- C6 witness: the round trip at duty 50 on both channels. -/
theorem C6_round_trip_grid_witness :
    (50 : ℤ) ∈ ([20, 30, 40, 50, 60, 70, 80, 90, 100] : List ℤ) ∧
    (rpm_to_percent min_fan_rpm max_fan_rpm (percent_to_rpm min_fan_rpm max_fan_rpm 50) = 50 ∧
     rpm_to_percent min_pump_rpm max_pump_rpm (percent_to_rpm min_pump_rpm max_pump_rpm 50) = 50) :=
  ⟨by decide, C6_round_trip_grid 50 (by decide)⟩

/-- C7: `percent_to_rpm` and `rpm_to_percent` are monotonically
non-decreasing for both the fan (200–2000) and pump (1000–2700)
parameters, and both saturate: every duty ≤ 20 (including 0) maps to
`min_rpm`, every duty ≥ 100 maps to `max_rpm`, every RPM ≤ `min_rpm`
maps to duty 20 and every RPM ≥ `max_rpm` to duty 100. -/
theorem C7_monotone_saturation :
    (∀ p q : ℤ, p ≤ q →
      percent_to_rpm min_fan_rpm max_fan_rpm p ≤ percent_to_rpm min_fan_rpm max_fan_rpm q) ∧
    (∀ p q : ℤ, p ≤ q →
      percent_to_rpm min_pump_rpm max_pump_rpm p ≤ percent_to_rpm min_pump_rpm max_pump_rpm q) ∧
    (∀ r s : ℤ, r ≤ s →
      rpm_to_percent min_fan_rpm max_fan_rpm r ≤ rpm_to_percent min_fan_rpm max_fan_rpm s) ∧
    (∀ r s : ℤ, r ≤ s →
      rpm_to_percent min_pump_rpm max_pump_rpm r ≤ rpm_to_percent min_pump_rpm max_pump_rpm s) ∧
    (∀ p : ℤ, p ≤ 20 →
      percent_to_rpm min_fan_rpm max_fan_rpm p = min_fan_rpm ∧
      percent_to_rpm min_pump_rpm max_pump_rpm p = min_pump_rpm) ∧
    (∀ p : ℤ, 100 ≤ p →
      percent_to_rpm min_fan_rpm max_fan_rpm p = max_fan_rpm ∧
      percent_to_rpm min_pump_rpm max_pump_rpm p = max_pump_rpm) ∧
    (∀ r : ℤ, r ≤ min_fan_rpm → rpm_to_percent min_fan_rpm max_fan_rpm r = 20) ∧
    (∀ r : ℤ, r ≤ min_pump_rpm → rpm_to_percent min_pump_rpm max_pump_rpm r = 20) ∧
    (∀ r : ℤ, max_fan_rpm ≤ r → rpm_to_percent min_fan_rpm max_fan_rpm r = 100) ∧
    (∀ r : ℤ, max_pump_rpm ≤ r → rpm_to_percent min_pump_rpm max_pump_rpm r = 100) := by
  refine ⟨fun p q h => percent_to_rpm_mono (by decide) (by decide) (by decide) h,
          fun p q h => percent_to_rpm_mono (by decide) (by decide) (by decide) h,
          fun r s h => rpm_to_percent_mono (by decide) h,
          fun r s h => rpm_to_percent_mono (by decide) h,
          ?_, ?_, ?_, ?_, ?_, ?_⟩ <;>
    intro x hx <;>
    simp only [percent_to_rpm, rpm_to_percent, min_fan_rpm, max_fan_rpm, min_pump_rpm,
      max_pump_rpm] at hx ⊢
  · simp [hx]
  · constructor <;> rw [if_neg (by omega), if_pos (by omega)]
  · rw [if_pos (by omega)]
  · rw [if_pos (by omega)]
  · rw [if_neg (by omega), if_pos (by omega)]
  · rw [if_neg (by omega), if_pos (by omega)]

/-- C7 witness: monotonicity and saturation at concrete points. -/
theorem C7_monotone_saturation_witness :
    percent_to_rpm min_fan_rpm max_fan_rpm 30 ≤ percent_to_rpm min_fan_rpm max_fan_rpm 70 ∧
    rpm_to_percent min_pump_rpm max_pump_rpm 1200 ≤ rpm_to_percent min_pump_rpm max_pump_rpm 2600 ∧
    percent_to_rpm min_fan_rpm max_fan_rpm 0 = min_fan_rpm ∧
    rpm_to_percent min_fan_rpm max_fan_rpm 2500 = 100 := by
  obtain ⟨h1, h2, h3, h4, h5, h6, h7, h8, h9, h10⟩ := C7_monotone_saturation
  exact ⟨h1 30 70 (by decide), h4 1200 2600 (by decide), (h5 0 (by decide)).1,
    h9 2500 (by decide)⟩

/-- C4 (counterexample): a fan-speed record whose value cannot be coerced
to a number is not excluded from the fan map and is not a duty-0 reading:
`rpm` falls back to 0 and the record is stored as
`(rpm_to_percent 0, 0) = (20, 0)`. -/
theorem C4_cex :
    parse_json_and_update [.dict [⟨"Fan speed 1", .str "garbage"⟩]] =
      ⟨[(1, (20, 0))], none, none⟩ ∧
    dictLookup 1 (parse_json_and_update [.dict [⟨"Fan speed 1", .str "garbage"⟩]]).fans =
      some (20, 0) ∧
    ((20 : ℤ), (0 : ℤ)) ≠ ((0 : ℤ), (0 : ℤ)) := by
  decide

/-- C4 (amended): a fan- or pump-speed record whose value cannot be
coerced to a number never raises: the RPM is coerced to 0 and the record
is recorded as the reading `(20, 0)` (`rpm_to_percent 0 = 20` for both
ranges) — exactly as if the reported value had been `0` — and the
remaining records are still parsed. -/
theorem C4_amended (pre post : List Entry) (k : String) (v : JVal)
    (hkey : (jsonFanIdx (pyLower k.toList)).isSome = true ∨
            (jsonFanIdx (pyLower k.toList) = none ∧ jsonIsPumpKey (pyLower k.toList) = true))
    (hbad : pyCoerceInt v = none) :
    (∀ (st : ParseResult) (i : ℕ), jsonFanIdx (pyLower k.toList) = some i →
       parseJsonEntry st ⟨k, v⟩ = { st with fans := dictInsert i (20, 0) st.fans }) ∧
    (jsonFanIdx (pyLower k.toList) = none → jsonIsPumpKey (pyLower k.toList) = true →
       ∀ st : ParseResult, parseJsonEntry st ⟨k, v⟩ = { st with pump := some (20, 0) }) ∧
    parse_json_and_update [.dict (pre ++ ⟨k, v⟩ :: post)] =
      parse_json_and_update [.dict (pre ++ ⟨k, .num 0⟩ :: post)] := by
  have hfan20 : rpm_to_percent min_fan_rpm max_fan_rpm 0 = 20 := by decide
  have hpump20 : rpm_to_percent min_pump_rpm max_pump_rpm 0 = 20 := by decide
  have hzero : pyCoerceInt (.num 0) = some 0 := by decide
  have hstep : ∀ st : ParseResult, parseJsonEntry st ⟨k, v⟩ = parseJsonEntry st ⟨k, .num 0⟩ := by
    intro st
    rcases h : jsonFanIdx (pyLower k.toList) with _ | i
    · rcases hkey with hk | ⟨_, hpump⟩
      · rw [h] at hk; simp at hk
      · have h' : jsonFanIdx (pyLower k.data) = none := h
        have hpump' : jsonIsPumpKey (pyLower k.data) = true := hpump
        simp [parseJsonEntry, h', hpump', hbad, hzero]
    · have h' : jsonFanIdx (pyLower k.data) = some i := h
      simp [parseJsonEntry, h', hbad, hzero]
  refine ⟨?_, ?_, ?_⟩
  · intro st i hi
    have hi' : jsonFanIdx (pyLower k.data) = some i := hi
    simp [parseJsonEntry, hi', hbad, hfan20]
  · intro hnone hpump st
    have hnone' : jsonFanIdx (pyLower k.data) = none := hnone
    have hpump' : jsonIsPumpKey (pyLower k.data) = true := hpump
    simp [parseJsonEntry, hnone', hpump', hbad, hpump20]
  · simp only [parse_json_and_update, iter_status_entries, List.foldr_cons, List.foldr_nil,
      List.append_nil, List.foldl_append, List.foldl_cons]
    rw [hstep]

/-- C4 witness: a garbage fan reading parses as if it were 0 and leaves
the following record intact. -/
theorem C4_amended_witness :
    parse_json_and_update
        [.dict ([] ++ ⟨"Fan speed 1", .str "garbage"⟩ :: [⟨"Fan speed 2", .num 800⟩])] =
      parse_json_and_update
        [.dict ([] ++ ⟨"Fan speed 1", .num 0⟩ :: [⟨"Fan speed 2", .num 800⟩])] :=
  (C4_amended [] [⟨"Fan speed 2", .num 800⟩] "Fan speed 1" (.str "garbage")
    (Or.inl (by decide)) (by decide)).2.2

/-- C5 (counterexample): a JSON-mode call that exits non-zero but with
empty stdout does not raise (`run_logged` is called without
`check=True`), so `update_status` parses it as an empty status via the
JSON path and never falls back to the text-mode call, contrary to the
claimed fallback on every non-zero exit. -/
theorem C5_cex :
    update_status_cli (fun _ => none) (some ⟨1, ""⟩) (some ⟨0, "Pump speed 2500 rpm"⟩) =
      .viaJson ⟨[], none, none⟩ ∧
    update_status_cli (fun _ => none) (some ⟨1, ""⟩) (some ⟨0, "Pump speed 2500 rpm"⟩) ≠
      .viaText (parse_text_and_update "Pump speed 2500 rpm") := by
  decide

/-- C5 (amended): the text-mode fallback triggers exactly when the
JSON-mode invocation raises (times out) or returns non-empty stdout that
is not valid JSON; an exit with empty stdout — non-zero or not — is
parsed as an empty JSON status with no fallback; a successful decode is
parsed as JSON; when the fallback runs it produces the text parse of the
text call's stdout, and if that call raises too the poll ends in a
status message, never a crash. -/
theorem C5_amended (decode : String → Option (List Block)) (textCall : Option ProcResult) :
    (∀ r : ProcResult, r.stdout ≠ "" → decode r.stdout = none →
        update_status_cli decode (some r) textCall = update_status_text_fallback textCall) ∧
    update_status_cli decode none textCall = update_status_text_fallback textCall ∧
    (∀ code : ℤ, update_status_cli decode (some ⟨code, ""⟩) textCall =
        .viaJson (parse_json_and_update [])) ∧
    (∀ r : ProcResult, r.stdout ≠ "" → ∀ d, decode r.stdout = some d →
        update_status_cli decode (some r) textCall = .viaJson (parse_json_and_update d)) ∧
    (∀ r2 : ProcResult, textCall = some r2 →
        update_status_text_fallback textCall = .viaText (parse_text_and_update r2.stdout)) ∧
    (textCall = none → update_status_text_fallback textCall = .statusMessage) := by
  refine ⟨?_, rfl, ?_, ?_, ?_, ?_⟩
  · intro r hne hdec
    simp [update_status_cli, hne, hdec]
  · intro code
    simp [update_status_cli]
  · intro r hne d hdec
    simp [update_status_cli, hne, hdec]
  · intro r2 h
    simp [update_status_text_fallback, h]
  · intro h
    simp [update_status_text_fallback, h]

/-- C5 witness: invalid non-empty JSON output falls back to the text
parse of the text-mode call. -/
theorem C5_amended_witness :
    update_status_cli (fun _ => none) (some ⟨0, "\x7b"⟩) (some ⟨0, "Pump speed 2500 rpm"⟩) =
      update_status_text_fallback (some ⟨0, "Pump speed 2500 rpm"⟩) :=
  (C5_amended (fun _ => none) (some ⟨0, "Pump speed 2500 rpm"⟩)).1 ⟨0, "\x7b"⟩
    (by decide) rfl

/-- C8 (counterexample): with ascending-but-not-strict temperatures
`t1 = 0 ≤ t2 = 5 ≤ t3 = 5` and duties `10, 20, 30`, evaluating at
`t == t2 == 5` hits the `temp >= pts[-1][0]` boundary first and returns
`p3 = 30`, not `p2 = 20` as claimed. -/
theorem C8_cex :
    curve_value [(0, 10), (5, 20), (5, 30)] 5 = 30 ∧ (30 : ℤ) ≠ 20 := by
  decide

/-- C8 (amended): for every 3-point curve with *strictly* ascending
temperatures `t1 < t2 < t3`, the evaluator returns exactly `p1` for
`t ≤ t1`, exactly `p3` for `t ≥ t3`, and exactly `p2` at `t = t2`; and
whenever the scan's bracketing segment is degenerate (`ti = ti+1`) it
returns the segment's upper duty without performing the division. -/
theorem C8_amended (t1 t2 t3 : ℚ) (p1 p2 p3 : ℤ) (h12 : t1 < t2) (h23 : t2 < t3) :
    (∀ t, t ≤ t1 → curve_value [(t1, p1), (t2, p2), (t3, p3)] t = p1) ∧
    (∀ t, t3 ≤ t → curve_value [(t1, p1), (t2, p2), (t3, p3)] t = p3) ∧
    curve_value [(t1, p1), (t2, p2), (t3, p3)] t2 = p2 ∧
    (∀ (ta : ℚ) (pa pb : ℤ) (rest : List (ℚ × ℤ)) (temp : ℚ),
      ta ≤ temp → temp ≤ ta →
      scanSegs temp ((ta, pa) :: (ta, pb) :: rest) = some pb) := by
  have hsorted : List.Sorted curveLe [(t1, p1), (t2, p2), (t3, p3)] := by
    simp only [List.sorted_cons, List.sorted_nil, List.mem_cons, List.mem_singleton,
      List.not_mem_nil, curveLe]
    refine ⟨?_, ?_, ?_⟩
    · intro b hb
      rcases hb with rfl | rfl | h
      · exact le_of_lt h12
      · exact le_of_lt (h12.trans h23)
      · simp at h
    · intro b hb
      rcases hb with rfl | h
      · exact le_of_lt h23
      · simp at h
    · simp
  have hsort : ([(t1, p1), (t2, p2), (t3, p3)] : List (ℚ × ℤ)).insertionSort curveLe =
      [(t1, p1), (t2, p2), (t3, p3)] := hsorted.insertionSort_eq
  refine ⟨?_, ?_, ?_, ?_⟩
  · intro t ht
    unfold curve_value
    rw [hsort]
    simp [curveEvalSorted, ht]
  · intro t ht
    have h1 : ¬ t ≤ t1 := by linarith
    unfold curve_value
    rw [hsort]
    simp [curveEvalSorted, List.getLast, h1, ht]
  · have h1 : ¬ t2 ≤ t1 := by linarith
    have h3 : ¬ t3 ≤ t2 := by linarith
    have hscan : scanSegs t2 [(t1, p1), (t2, p2), (t3, p3)] = some p2 := by
      have hcast : (p1 : ℚ) + (t2 - t1) / (t2 - t1) * ((p2 : ℚ) - p1) = ((p2 : ℤ) : ℚ) := by
        rw [div_self (sub_ne_zero.mpr (ne_of_gt h12))]
        ring
      rw [show scanSegs t2 [(t1, p1), (t2, p2), (t3, p3)] =
          if t1 ≤ t2 ∧ t2 ≤ t2 then
            some (if t2 = t1 then p2
                  else pyRound ((p1 : ℚ) + (t2 - t1) / (t2 - t1) * ((p2 : ℚ) - p1)))
          else scanSegs t2 [(t2, p2), (t3, p3)] from rfl]
      rw [if_pos ⟨le_of_lt h12, le_refl t2⟩,
        if_neg (show ¬ t2 = t1 from fun hc => absurd hc (ne_of_gt h12)), hcast,
        pyRound_intCast]
    unfold curve_value
    rw [hsort]
    simp [curveEvalSorted, List.getLast, h1, h3, hscan]
  · intro ta pa pb rest temp hle hge
    simp [scanSegs, hle, hge]

/-- C8 witness: the strict 3-point curve `(0,10), (5,20), (10,30)`
evaluated at its boundaries and at its middle point. -/
theorem C8_amended_witness :
    curve_value [(0, 10), (5, 20), (10, 30)] (-1) = 10 ∧
    curve_value [(0, 10), (5, 20), (10, 30)] 12 = 30 ∧
    curve_value [(0, 10), (5, 20), (10, 30)] 5 = 20 := by
  obtain ⟨hlo, hhi, hmid, _⟩ := C8_amended 0 5 10 10 20 30 (by norm_num) (by norm_num)
  exact ⟨hlo (-1) (by norm_num), hhi 12 (by norm_num), hmid⟩

/-- Two permuted lists, both sorted by temperature, with pairwise
distinct temperatures, are equal. -/
theorem sorted_keyNodup_eq : ∀ {l₁ l₂ : List (ℚ × ℤ)}, l₁.Perm l₂ →
    l₁.Sorted curveLe → l₂.Sorted curveLe → (l₁.map Prod.fst).Nodup → l₁ = l₂ := by
  intro l₁
  induction l₁ with
  | nil =>
    intro l₂ hp _ _ _
    exact hp.nil_eq
  | cons a t ih =>
    intro l₂ hp hs₁ hs₂ hnd
    obtain ⟨b, t₂, rfl⟩ : ∃ b t₂, l₂ = b :: t₂ := by
      cases l₂ with
      | nil => exact absurd hp.symm.nil_eq (by simp)
      | cons b t₂ => exact ⟨b, t₂, rfl⟩
    have hnd₁ : a.1 ∉ t.map Prod.fst ∧ (t.map Prod.fst).Nodup := by
      rw [List.map_cons] at hnd
      exact List.nodup_cons.mp hnd
    have hab : a = b := by
      by_contra hne
      have ha2 : a ∈ t₂ := by
        rcases List.mem_cons.mp (hp.subset (List.mem_cons_self a t)) with h | h
        · exact absurd h hne
        · exact h
      have hb1 : b ∈ t := by
        rcases List.mem_cons.mp (hp.symm.subset (List.mem_cons_self b t₂)) with h | h
        · exact absurd h.symm hne
        · exact h
      have h1 : curveLe a b := (List.sorted_cons.mp hs₁).1 b hb1
      have h2 : curveLe b a := (List.sorted_cons.mp hs₂).1 a ha2
      have hkey : b.1 = a.1 := le_antisymm h2 h1
      exact hnd₁.1 (hkey ▸ List.mem_map_of_mem Prod.fst hb1)
    subst hab
    rw [ih hp.cons_inv (List.sorted_cons.mp hs₁).2 (List.sorted_cons.mp hs₂).2 hnd₁.2]

/-- C10 (counterexample): permutation invariance fails when two control
points share a temperature — the stable sort preserves their input
order, so the two orders of `(50, 30)` and `(50, 70)` evaluate
differently. -/
theorem C10_cex :
    ([((50 : ℚ), (30 : ℤ)), (50, 70)]).Perm [((50 : ℚ), (70 : ℤ)), (50, 30)] ∧
    curve_value [(50, 30), (50, 70)] 40 = 30 ∧
    curve_value [(50, 70), (50, 30)] 40 = 70 ∧
    (30 : ℤ) ≠ 70 := by
  refine ⟨List.Perm.swap (50, 70) (50, 30) [], by decide, by decide, by decide⟩

/-- C10 (amended): `_curve_value` sorts its points by temperature before
scanning, so its result is invariant under any permutation of the input
points *provided the temperatures are pairwise distinct*; for the empty
point list it returns 0. -/
theorem C10_amended :
    (∀ (l₁ l₂ : List (ℚ × ℤ)) (temp : ℚ), l₁.Perm l₂ → (l₁.map Prod.fst).Nodup →
      curve_value l₁ temp = curve_value l₂ temp) ∧
    (∀ temp : ℚ, curve_value [] temp = 0) := by
  constructor
  · intro l₁ l₂ temp hp hnd
    unfold curve_value
    congr 1
    refine sorted_keyNodup_eq ?_ (List.sorted_insertionSort curveLe l₁)
      (List.sorted_insertionSort curveLe l₂) ?_
    · exact (List.perm_insertionSort curveLe l₁).trans
        (hp.trans (List.perm_insertionSort curveLe l₂).symm)
    · exact (((List.perm_insertionSort curveLe l₁).map Prod.fst).nodup_iff).mpr hnd
  · intro temp
    rfl

/-- C10 witness: a transposed two-point curve with distinct temperatures
evaluates identically. -/
theorem C10_amended_witness :
    curve_value [((5 : ℚ), (10 : ℤ)), (0, 20)] 3 = curve_value [((0 : ℚ), (20 : ℤ)), (5, 10)] 3 :=
  C10_amended.1 [(5, 10), (0, 20)] [(0, 20), (5, 10)] 3
    (List.Perm.swap (0, 20) (5, 10) []) (by decide)

/-- C2 (counterexample): with hysteresis 0 (allowed by the settings
spinbox, range 0–20) and `cpu_crit = 85`, a Boosted state at
`cpu_temp = 85` satisfies the claimed exit condition
(`85 ≤ cpu_crit − hysteresis`), yet the controller stays Boosted: the
exit test only runs when `over` is false, and `85 ≥ 85` keeps `over`
true. -/
theorem C2_cex :
    cooledDown ⟨true, 85, 45, 0⟩ (some 85) none ∧
    (check_safety_boost
        ⟨⟨true, 85, 45, 0⟩, [100, 100], 100, true, true, true, some ⟨[30, 40], 50⟩⟩
        (some 85) none) =
      ⟨⟨true, 85, 45, 0⟩, [100, 100], 100, true, true, true, some ⟨[30, 40], 50⟩⟩ ∧
    (check_safety_boost
        ⟨⟨true, 85, 45, 0⟩, [100, 100], 100, true, true, true, some ⟨[30, 40], 50⟩⟩
        (some 85) none).boost_active = true := by
  refine ⟨⟨Or.inr ⟨85, rfl, by norm_num⟩, Or.inl rfl⟩, by decide, by decide⟩

/-- C2 (amended): with safety enabled and a *positive* hysteresis, the
controller is the claimed two-state machine.  In `Normal` it enters
`Boosted` exactly when a known CPU temperature ≥ `cpu_crit` or a known
water temperature ≥ `water_crit`, snapshotting the current duties and
commanding all channels to 100 %; otherwise it is inert.  In `Boosted`
(with the snapshot captured at entry) it returns to `Normal` exactly
when the CPU reading is unknown or ≤ `cpu_crit − hysteresis` AND the
water reading is unknown or ≤ `water_crit − hysteresis`, restoring every
channel duty from the snapshot and discarding it; otherwise it is
inert. -/
theorem C2_amended (s : BoostState) (cpu water : Option ℚ)
    (hen : s.safety.enabled = true) (hh : 0 < s.safety.hysteresis) :
    (s.boost_active = false →
      ((check_safety_boost s cpu water).boost_active = true ↔
        overThreshold s.safety cpu water) ∧
      (overThreshold s.safety cpu water →
        check_safety_boost s cpu water =
          { s with
              fan_sliders := s.fan_sliders.map fun _ => 100,
              pump_slider := if s.have_pump && s.pump_supported then 100 else s.pump_slider,
              boost_active := true,
              preboost := some ⟨s.fan_sliders, s.pump_slider⟩ }) ∧
      (¬ overThreshold s.safety cpu water → check_safety_boost s cpu water = s)) ∧
    (∀ pb : Snapshot, s.boost_active = true → s.preboost = some pb →
      pb.fans.length = s.fan_sliders.length →
      ((check_safety_boost s cpu water).boost_active = false ↔
        cooledDown s.safety cpu water) ∧
      (cooledDown s.safety cpu water →
        check_safety_boost s cpu water =
          { s with
              fan_sliders := pb.fans,
              pump_slider := if s.have_pump && s.pump_supported then pb.pump else s.pump_slider,
              boost_active := false,
              preboost := none }) ∧
      (¬ cooledDown s.safety cpu water → check_safety_boost s cpu water = s)) := by
  constructor
  · intro hna
    by_cases hov : overThreshold s.safety cpu water
    · have hovB : overB s.safety cpu water = true := (overB_iff _ _ _).mpr hov
      have hstep : check_safety_boost s cpu water = boostEntry s := by
        simp [check_safety_boost, hen, hovB, hna]
      refine ⟨?_, ?_, ?_⟩
      · rw [hstep]
        simp only [boostEntry]
        by_cases hf : s.have_pump && s.pump_supported <;> simp [hf, hov]
      · intro _
        rw [hstep]
        simp only [boostEntry]
        by_cases hf : s.have_pump && s.pump_supported <;> simp [hf]
      · intro hc
        exact absurd hov hc
    · have hovB : overB s.safety cpu water = false := by
        rcases Bool.eq_false_or_eq_true (overB s.safety cpu water) with h | h
        · exact absurd ((overB_iff _ _ _).mp h) hov
        · exact h
      have hstep : check_safety_boost s cpu water = s := by
        simp [check_safety_boost, hen, hovB, hna]
      refine ⟨?_, fun hc => absurd hc hov, fun _ => hstep⟩
      rw [hstep, hna]
      simp [hov]
  · intro pb hba hpb hlen
    by_cases hcool : cooledDown s.safety cpu water
    · have hnov : ¬ overThreshold s.safety cpu water := by
        rintro (⟨c, hc, hcc⟩ | ⟨w, hw, hww⟩)
        · rcases hcool.1 with h | ⟨c', hc', hcc'⟩
          · rw [hc] at h; exact Option.noConfusion h
          · rw [hc] at hc'
            injection hc' with hc''
            subst hc''
            linarith
        · rcases hcool.2 with h | ⟨w', hw', hww'⟩
          · rw [hw] at h; exact Option.noConfusion h
          · rw [hw] at hw'
            injection hw' with hw''
            subst hw''
            linarith
      have hovB : overB s.safety cpu water = false := by
        rcases Bool.eq_false_or_eq_true (overB s.safety cpu water) with h | h
        · exact absurd ((overB_iff _ _ _).mp h) hnov
        · exact h
      have hbel : belowB s.safety cpu water = true := (belowB_iff _ _ _).mpr hcool
      have hstep : check_safety_boost s cpu water = restore_from_boost s := by
        simp [check_safety_boost, hen, hovB, hba, hbel]
      have hrest : restore_from_boost s =
          { s with
              fan_sliders := pb.fans,
              pump_slider := if s.have_pump && s.pump_supported then pb.pump else s.pump_slider,
              boost_active := false,
              preboost := none } := by
        simp only [restore_from_boost, hpb]
        rw [restoreFans_of_length_eq s.fan_sliders pb.fans hlen]
        by_cases hf : s.have_pump && s.pump_supported <;> simp [hf]
      refine ⟨?_, fun _ => by rw [hstep, hrest], fun hc => absurd hcool hc⟩
      rw [hstep, hrest]
      simp [hcool]
    · have hbel : belowB s.safety cpu water = false := by
        rcases Bool.eq_false_or_eq_true (belowB s.safety cpu water) with h | h
        · exact absurd ((belowB_iff _ _ _).mp h) hcool
        · exact h
      have hstep : check_safety_boost s cpu water = s := by
        by_cases hovB : overB s.safety cpu water = true
        · simp [check_safety_boost, hen, hovB, hba]
        · have hovB2 : overB s.safety cpu water = false := Bool.eq_false_iff.mpr hovB
          simp [check_safety_boost, hen, hovB2, hba, hbel]
      refine ⟨?_, fun hc => absurd hc hcool, fun _ => hstep⟩
      rw [hstep, hba]
      simp [hcool]

/-- C2 witness: the claimed concrete run with `cpu_crit = 85`,
`hysteresis = 5`: `cpu = 85` enters Boosted (snapshot `[30, 40]` / 50,
everything commanded to 100), `cpu = 81` stays Boosted and inert,
`cpu = 80` exits and restores the snapshot exactly. -/
theorem C2_amended_witness :
    (check_safety_boost ⟨⟨true, 85, 45, 5⟩, [30, 40], 50, true, true, false, none⟩
        (some 85) none) =
      ⟨⟨true, 85, 45, 5⟩, [100, 100], 100, true, true, true, some ⟨[30, 40], 50⟩⟩ ∧
    (check_safety_boost ⟨⟨true, 85, 45, 5⟩, [100, 100], 100, true, true, true, some ⟨[30, 40], 50⟩⟩
        (some 81) none) =
      ⟨⟨true, 85, 45, 5⟩, [100, 100], 100, true, true, true, some ⟨[30, 40], 50⟩⟩ ∧
    (check_safety_boost ⟨⟨true, 85, 45, 5⟩, [100, 100], 100, true, true, true, some ⟨[30, 40], 50⟩⟩
        (some 80) none) =
      ⟨⟨true, 85, 45, 5⟩, [30, 40], 50, true, true, false, none⟩ := by
  refine ⟨?_, ?_, ?_⟩
  · have h := ((C2_amended ⟨⟨true, 85, 45, 5⟩, [30, 40], 50, true, true, false, none⟩
      (some 85) none rfl (by norm_num)).1 rfl).2.1
      (Or.inl ⟨85, rfl, by norm_num⟩)
    simpa using h
  · have h := ((C2_amended ⟨⟨true, 85, 45, 5⟩, [100, 100], 100, true, true, true,
      some ⟨[30, 40], 50⟩⟩ (some 81) none rfl (by norm_num)).2 ⟨[30, 40], 50⟩ rfl rfl rfl).2.2
      (by
        rintro ⟨h1, _⟩
        rcases h1 with h | ⟨c, hc, hcc⟩
        · exact Option.noConfusion h
        · injection hc with hc'
          subst hc'
          norm_num at hcc)
    simpa using h
  · have h := ((C2_amended ⟨⟨true, 85, 45, 5⟩, [100, 100], 100, true, true, true,
      some ⟨[30, 40], 50⟩⟩ (some 80) none rfl (by norm_num)).2 ⟨[30, 40], 50⟩ rfl rfl rfl).2.1
      ⟨Or.inr ⟨80, rfl, by norm_num⟩, Or.inl rfl⟩
    simpa using h

theorem refreshPump_fan_sliders (now : ℚ) (pump : Option (ℤ × ℤ)) (s : UiState) :
    (refreshPump now pump s).fan_sliders = s.fan_sliders := by
  by_cases hf : (s.have_pump && s.pump_supported) = true
  · cases pump with
    | none => simp [refreshPump, hf]
    | some pr =>
      rcases pr with ⟨ppct, prpm⟩
      rcases hss : s.user_set_pump_speed with _ | ⟨pp, t⟩
      · simp [refreshPump, hf, hss]
      · by_cases ht : now - t > 3 <;> simp [refreshPump, hf, hss, ht]
  · simp [refreshPump, hf]

/-- C9 (counterexample): a protected user edit is clobbered when the
poll's maximum fan index differs from the current fan count — the slider
widgets are rebuilt at value 0, and the protection window then prevents
the fresh reading from being applied, leaving 0 instead of the user's
50: the refresh did not leave the slider value unchanged even though
`now − T = 1 ≤ 3`. -/
theorem C9_cex :
    (update_ui_from_maps 11 [(1, (70, 1400)), (2, (60, 1200)), (3, (60, 1200))] none
        ⟨2, [50, 60], (fun i => if i = 1 then some (50, 10) else none), 0, none, false, false⟩
      ).fan_sliders.getD 0 0 = 0 ∧
    ((⟨2, [50, 60], (fun i => if i = 1 then some (50, 10) else none), 0, none, false,
        false⟩ : UiState)).fan_sliders.getD 0 0 = 50 ∧
    (fun i => if i = 1 then some ((50 : ℤ), (10 : ℚ)) else none) 1 = some (50, 10) ∧
    (11 : ℚ) - 10 ≤ 3 ∧
    (0 : ℤ) ≠ 50 := by
  refine ⟨by decide, by decide, by decide, by decide, by decide⟩

/-- C9 (amended): provided the poll does not change the fan count (no
fan readings, or the reported maximum fan index equals the current
count — otherwise the controls are rebuilt with sliders reset to 0), a
channel's slider that the user set at time `T` is left unchanged by
every refresh at `now` with `now − T ≤ 3`, regardless of the reported
duty; the pump slider enjoys the same protection. -/
theorem C9_amended (s : UiState) (now : ℚ) (fan_map : FanMap) (pump : Option (ℤ × ℤ))
    (hcnt : fan_map = [] ∨ maxKey fan_map = s.fan_count) :
    (∀ (i : ℕ) (pu : ℤ) (T : ℚ), 1 ≤ i → i ≤ s.fan_count →
      s.user_set_fan_speeds i = some (pu, T) → now - T ≤ 3 →
      (update_ui_from_maps now fan_map pump s).fan_sliders.getD (i - 1) 0 =
        s.fan_sliders.getD (i - 1) 0) ∧
    (∀ (pp : ℤ) (Tp : ℚ), s.user_set_pump_speed = some (pp, Tp) → now - Tp ≤ 3 →
      (update_ui_from_maps now fan_map pump s).pump_slider = s.pump_slider) := by
  have hreb : rebuildIfNeeded fan_map s = s := by
    rcases hcnt with rfl | h
    · rfl
    · cases fan_map with
      | nil => rfl
      | cons a l =>
        simp only [rebuildIfNeeded]
        rw [if_neg]
        simpa using h
  constructor
  · intro i pu T h1 hik hus hwin
    have hfans : (update_ui_from_maps now fan_map pump s).fan_sliders =
        refreshFanSliders now fan_map s := by
      simp only [update_ui_from_maps, hreb, refreshPump_fan_sliders]
    have hlt : i - 1 < s.fan_count := by omega
    have hidx : i - 1 + 1 = i := by omega
    rw [hfans]
    simp only [refreshFanSliders]
    rw [List.getD_eq_getElem?_getD, List.getElem?_map, List.getElem?_range hlt]
    simp only [Option.map_some', Option.getD_some]
    rw [hidx]
    have hnot : ¬ now - T > 3 := not_lt.mpr hwin
    rcases hl : dictLookup i fan_map with _ | ⟨pct, rpm⟩ <;>
      simp [hl, hus, hnot, List.getD_eq_getElem?_getD]
  · intro pp Tp hup hwin
    have hnot : ¬ now - Tp > 3 := not_lt.mpr hwin
    simp only [update_ui_from_maps, hreb]
    by_cases hf : (s.have_pump && s.pump_supported) = true
    · cases pump with
      | none => simp [refreshPump, hf]
      | some pr =>
        rcases pr with ⟨ppct, prpm⟩
        simp [refreshPump, hf, hup, hnot]
    · simp [refreshPump, hf]

/-- C9 witness: with a count-preserving poll, a 1-second-old user edit
on fan 1 survives a refresh that reports a different duty. -/
theorem C9_amended_witness :
    (update_ui_from_maps 11 [(1, (70, 1400)), (2, (60, 1200))] none
        ⟨2, [50, 60], (fun i => if i = 1 then some (50, 10) else none), 0, none, false, false⟩
      ).fan_sliders.getD 0 0 =
    ((⟨2, [50, 60], (fun i => if i = 1 then some (50, 10) else none), 0, none, false,
        false⟩ : UiState)).fan_sliders.getD 0 0 :=
  (C9_amended ⟨2, [50, 60], (fun i => if i = 1 then some (50, 10) else none), 0, none,
      false, false⟩ 11 [(1, (70, 1400)), (2, (60, 1200))] none
    (Or.inr (by decide))).1 1 50 10 (by decide) (by decide) rfl (by decide)

end LiquidctlGUI
